import Mathlib

/-!
# Wellnest — a shallow embedding of the anomaly detector and routine learner

This file embeds, in Lean 4, the parts of the Wellnest repository that the
verified claims are about:

* `app/services/anomaly_detector.py` — the `AnomalyDetector` class: per-day
  household state (`_update_state`), the four anomaly rules and the two
  de-duplication layers of `check_anomalies`, `should_send_alert`,
  `mark_alert_sent`, `save_alert`, `get_baseline`;
* `app/scheduler/routine_learner.py` — `timestr2minutes`, the nested
  `stat_summary` helper of `aggregate_baselines`, and the
  `activity_duration` aggregation.

Modelling conventions:

* Python `datetime` instants are modelled as `Nat` seconds on a single time
  axis; ISO-8601 timestamp strings stored in MongoDB are totally ordered by
  string comparison exactly as the instants they denote, so an alert's
  `timestamp` field is modelled by the instant itself.
* Python dicts with known keys become structures; an absent key or a `None`
  value becomes `Option.none`.  Python truthiness on strings (`if s:`) is
  `s ≠ ""`, and on integers (`if n:`) is `n ≠ 0`.
* Fallible Python code (statements that can raise) is modelled in
  `Except String`; the error string names the Python exception.
* `MongoDB.write` is `insert_one`, so the alert collection is an
  append-only list.
-/

namespace Wellnest

/-! ## Python primitives -/

/-- Decimal digit parsing on a character list (structural recursion, so
the kernel can evaluate it; the library's `String.toNat?` is opaque to
kernel reduction). -/
def parseDigitsAux : List Char → Nat → Option Nat
  | [], acc => some acc
  | c :: rest, acc =>
    if c.isDigit then parseDigitsAux rest (acc * 10 + (c.toNat - 48))
    else none

/-- A non-empty all-digit character list as a natural number. -/
def parseDigits : List Char → Option Nat
  | [] => none
  | cs => parseDigitsAux cs 0

/-- Model of Python `int(s)` on the strings this program feeds it: an
optional sign followed by decimal digits.  (CPython also tolerates
surrounding whitespace and inner underscores; no caller in this repository
produces such strings.) -/
def parsePyInt (s : String) : Option Int :=
  match s.toList with
  | '-' :: rest => (parseDigits rest).map (fun n => -(n : Int))
  | '+' :: rest => (parseDigits rest).map (fun n => (n : Int))
  | cs => (parseDigits cs).map (fun n => (n : Int))

/-- Python `s.split(sep)` for a single-character separator, on character
lists: always at least one (possibly empty) part. -/
def splitOnCharAux (sep : Char) : List Char → List String
  | [] => [""]
  | c :: rest =>
    let r := splitOnCharAux sep rest
    if c = sep then "" :: r
    else
      match r with
      | [] => [String.mk [c]]
      | h :: t => (String.mk (c :: h.toList)) :: t

/-- Python `s.split(sep)` for a single-character separator. -/
def pySplit (s : String) (sep : Char) : List String :=
  splitOnCharAux sep s.toList

/-- Does the second list start with the first? -/
def headMatch : List Char → List Char → Bool
  | [], _ => true
  | _ :: _, [] => false
  | a :: as, b :: bs => (a = b) && headMatch as bs

/-- Python `pat in s` substring containment (for a non-empty pattern). -/
def containsSubAux (pat : List Char) : List Char → Bool
  | [] => pat.isEmpty
  | c :: rest => headMatch pat (c :: rest) || containsSubAux pat rest

/-- Python `pat in s` substring test. -/
def strContainsSub (s pat : String) : Bool :=
  containsSubAux pat.toList s.toList

/-- `AnomalyDetector.time_to_minutes`:
`h, m = map(int, time_str.split(":")); return h * 60 + m`, with any
exception (wrong number of `:`-separated parts, non-integer part) caught
and turned into `None`. -/
def time_to_minutes (time_str : String) : Option Int :=
  match pySplit time_str ':' with
  | [h, m] =>
    match parsePyInt h, parsePyInt m with
    | some hv, some mv => some (hv * 60 + mv)
    | _, _ => none
  | _ => none

/-- Model of `datetime.fromisoformat` restricted to the
`"YYYY-MM-DDTHH:MM:SS"` timestamps this program writes: the result is an
instant in seconds on a linearised calendar (every month 31 days).  Claims
proved below never depend on durations across month boundaries, only on
parse success/failure and on same-day arithmetic.  A string not of this
shape raises `ValueError` in Python, here `none`. -/
def parse_isoformat (s : String) : Option Nat :=
  match pySplit s 'T' with
  | [d, t] =>
    match pySplit d '-', pySplit t ':' with
    | [ys, mos, das], [hs, mis, ses] =>
      match parseDigits ys.toList, parseDigits mos.toList, parseDigits das.toList,
          parseDigits hs.toList, parseDigits mis.toList, parseDigits ses.toList with
      | some y, some mo, some da, some h, some mi, some se =>
        if 1 ≤ mo ∧ mo ≤ 12 ∧ 1 ≤ da ∧ da ≤ 31 ∧ h < 24 ∧ mi < 60 ∧ se < 60 then
          some (((((y * 12 + (mo - 1)) * 31 + (da - 1)) * 24 + h) * 60 + mi) * 60 + se)
        else none
      | _, _, _, _, _, _ => none
    | _, _ => none
  | _ => none

/-! ## Sensor events and per-day household state -/

/-- A sensor event's `value` field is either a string or a boolean
(the simulator writes `"True"`/`"False"` strings). -/
inductive SensorValue where
  | str (s : String)
  | bool (b : Bool)
deriving Repr, DecidableEq

/-- Python `val in ["False", "false", False]`. -/
def isFalseVal (v : SensorValue) : Bool :=
  v == .str "False" || v == .str "false" || v == .bool false

/-- Python `val in ["True", "true", True]`. -/
def isTrueVal (v : SensorValue) : Bool :=
  v == .str "True" || v == .str "true" || v == .bool true

/-- A sensor event document, with the fields `_update_state` and
`update_state_on_event` read. -/
structure Event where
  household_id : String
  sensor_type : String
  location : String
  value : SensorValue
  timestamp : String
deriving Repr, DecidableEq

/-- The per-day household state dict built by `get_today_state`. -/
structure HouseholdDailyState where
  wake_detected : Bool
  kitchen_visited : Bool
  bathroom_count : Nat
  last_motion_time : Option String
  last_location : Option String
  door_opened : Bool
  first_kitchen_time : Option String
  wake_up_time : Option String
deriving Repr, DecidableEq

/-- The fresh state dict of `get_today_state`. -/
def initState : HouseholdDailyState :=
  { wake_detected := false
    kitchen_visited := false
    bathroom_count := 0
    last_motion_time := none
    last_location := none
    door_opened := false
    first_kitchen_time := none
    wake_up_time := none }

/-- Python `ts[11:16]` — the `HH:MM` slice of an ISO timestamp. -/
def hhmmSlice (ts : String) : String :=
  String.mk ((ts.toList.drop 11).take 5)

/-- `_update_state`, statement 1: first bed-exit of the day sets
`wake_detected` and `wake_up_time`. -/
def stepBed (event : Event) (state : HouseholdDailyState) : HouseholdDailyState :=
  if event.sensor_type == "bed_presence" && isFalseVal event.value then
    if !state.wake_detected then
      { state with wake_detected := true, wake_up_time := some (hhmmSlice event.timestamp) }
    else state
  else state

/-- `_update_state`, statement 2: first kitchen motion sets
`kitchen_visited` and `first_kitchen_time`. -/
def stepKitchen (event : Event) (state : HouseholdDailyState) : HouseholdDailyState :=
  if event.sensor_type == "motion" && event.location == "kitchen" && isTrueVal event.value then
    if !state.kitchen_visited then
      { state with kitchen_visited := true, first_kitchen_time := some (hhmmSlice event.timestamp) }
    else state
  else state

/-- `_update_state`, statement 3: every motion in a location containing
`"bathroom"` increments `bathroom_count`. -/
def stepBathroom (event : Event) (state : HouseholdDailyState) : HouseholdDailyState :=
  if event.sensor_type == "motion" && strContainsSub event.location "bathroom"
      && isTrueVal event.value then
    { state with bathroom_count := state.bathroom_count + 1 }
  else state

/-- `_update_state`, statement 4: every motion updates `last_motion_time`
and `last_location`. -/
def stepMotion (event : Event) (state : HouseholdDailyState) : HouseholdDailyState :=
  if event.sensor_type == "motion" && isTrueVal event.value then
    { state with last_motion_time := some event.timestamp, last_location := some event.location }
  else state

/-- `_update_state`, statement 5: an entrance door event sets
`door_opened`. -/
def stepDoor (event : Event) (state : HouseholdDailyState) : HouseholdDailyState :=
  if event.sensor_type == "door" && event.location == "entrance" then
    { state with door_opened := true }
  else state

/-- `AnomalyDetector._update_state`: five independent `if` statements
applied in order to the mutable state dict. -/
def updateState (state : HouseholdDailyState) (event : Event) : HouseholdDailyState :=
  stepDoor event (stepMotion event (stepBathroom event (stepKitchen event (stepBed event state))))

/-- `get_today_state` replays today's events, in timestamp order, through
`_update_state` starting from the fresh state. -/
def applyEvents (events : List Event) : HouseholdDailyState :=
  events.foldl updateState initState

/-! ## Baseline documents -/

/-- A per-field stat block in a baseline document (only the keys
`check_anomalies` reads).  A missing block (`baseline.get(k, {})` giving
`{}`) is the all-`none` value. -/
structure TimeBaseline where
  median : Option String
  latest : Option String
deriving Repr, DecidableEq

/-- The `bathroom_visits` block (only the keys `check_anomalies` reads). -/
structure BathroomBaseline where
  daily_median : Option Int
  max_daily : Option Int
deriving Repr, DecidableEq

/-- A baseline document, restricted to the fields `check_anomalies`
reads. -/
structure Baseline where
  first_kitchen_time : TimeBaseline
  wake_up_time : TimeBaseline
  bathroom_visits : BathroomBaseline
deriving Repr, DecidableEq

/-- A document in the `alerts` collection / an anomaly dict.  The rules
create it without `_id`, `acknowledged` and `created_at`; `save_alert`
fills those in.  `timestamp` is the ISO string `current_time.isoformat()`,
modelled as the instant (seconds); `created_at` likewise.  The display-only
`message`/`context`/`actionable` strings are not modelled, except that the
one raising dict access inside a message (`kitchen_baseline['median']`) is
kept as an explicit guard in the kitchen rule. -/
structure Alert where
  household_id : String
  atype : String
  severity : String
  timestamp : Nat
  acknowledged : Option Bool
  created_at : Option Nat
  alert_id : Option String
deriving Repr, DecidableEq

/-- An anomaly dict as first appended to the `anomalies` list. -/
def mkAnomaly (hid atype severity : String) (tCurrent : Nat) : Alert :=
  { household_id := hid
    atype := atype
    severity := severity
    timestamp := tCurrent
    acknowledged := none
    created_at := none
    alert_id := none }

/-! ## The four anomaly rules of `check_anomalies`

`current_time = datetime.now(timezone.utc)` is the parameter `tCurrent`
(seconds); `current_minutes = current_time.hour * 60 +
current_time.minute` is `tCurrent / 60 % 1440`. -/

/-- `current_minutes` of `check_anomalies`. -/
def currentMinutes (tCurrent : Nat) : Nat :=
  tCurrent / 60 % 1440

/-- Rule 1, *missed kitchen visit*.  Python truthiness: the `latest` string
must be present and non-empty, and `latest_kitchen_mins` must be non-`None`
and non-zero.  Building the message reads `kitchen_baseline['median']`
with a raising `[]` access (`KeyError` when absent). -/
def rule_missed_kitchen (hid : String) (baseline : Baseline)
    (state : HouseholdDailyState) (tCurrent : Nat) : Except String (Option Alert) :=
  if state.wake_detected && !state.kitchen_visited then
    match baseline.first_kitchen_time.latest with
    | some l =>
      if l ≠ "" then
        match time_to_minutes l with
        | some lm =>
          if lm ≠ 0 ∧ (currentMinutes tCurrent : Int) > lm + 30 then
            match baseline.first_kitchen_time.median with
            | some _ => .ok (some (mkAnomaly hid "missed_kitchen_activity" "medium" tCurrent))
            | none => .error "KeyError: median"
          else .ok none
        | none => .ok none
      else .ok none
    | none => .ok none
  else .ok none

/-- Rule 2, *prolonged inactivity*: `datetime.fromisoformat` on
`state["last_motion_time"]` raises on a malformed string; otherwise the
anomaly fires when the gap exceeds 2 hours and `current_minutes > 480`.
(A negative Python gap and the truncated `Nat` gap both fail the
`> 7200` s test.) -/
def rule_prolonged_inactivity (hid : String) (state : HouseholdDailyState)
    (tCurrent : Nat) : Except String (Option Alert) :=
  match state.last_motion_time with
  | some lmt =>
    if lmt ≠ "" then
      match parse_isoformat lmt with
      | some lastMotion =>
        if tCurrent - lastMotion > 7200 ∧ currentMinutes tCurrent > 480 then
          .ok (some (mkAnomaly hid "prolonged_inactivity" "high" tCurrent))
        else .ok none
      | none => .error "ValueError: fromisoformat"
    else .ok none
  | none => .ok none

/-- Rule 3, *excessive bathroom visits*.  `if
bathroom_baseline.get("max_daily"):` — `max_daily` must be present and
non-zero. -/
def rule_excessive_bathroom (hid : String) (baseline : Baseline)
    (state : HouseholdDailyState) (tCurrent : Nat) : Option Alert :=
  match baseline.bathroom_visits.max_daily with
  | some md =>
    if md ≠ 0 ∧ (state.bathroom_count : Int) > md + 2 then
      some (mkAnomaly hid "excessive_bathroom_visits" "medium" tCurrent)
    else none
  | none => none

/-- Rule 4, *late wake up*: both the state's `wake_up_time` and the
baseline's `latest` must be present, non-empty, parse, and parse to a
non-zero minute count. -/
def rule_late_wake (hid : String) (baseline : Baseline)
    (state : HouseholdDailyState) (tCurrent : Nat) : Option Alert :=
  if state.wake_detected then
    match state.wake_up_time with
    | some w =>
      if w ≠ "" then
        match baseline.wake_up_time.latest with
        | some l =>
          if l ≠ "" then
            match time_to_minutes l, time_to_minutes w with
            | some lm, some am =>
              if am ≠ 0 ∧ lm ≠ 0 ∧ am > lm + 60 then
                some (mkAnomaly hid "late_wake_up" "low" tCurrent)
              else none
            | _, _ => none
          else none
        | none => none
      else none
    | none => none
  else none

/-! ## The two de-duplication layers and alert persistence -/

/-- `AnomalyDetector.ALERT_COOLDOWN_HOURS = 2`, in seconds. -/
def cooldownSeconds : Nat := 2 * 3600

/-- `self.recent_alerts : {household_id: {alert_type: timestamp}}`,
flattened to an association list keyed by `(household_id, alert_type)`.
`List.lookup` finds the first (most recently inserted) binding. -/
abbrev RecentMap : Type := List ((String × String) × Nat)

/-- `should_send_alert`: passes when no alert of this type is recorded, or
when `(now - last_sent)` is at least the 2-hour cooldown.  `tNow` is the
`datetime.now(timezone.utc)` call inside the method. -/
def shouldSendAlert (recent : RecentMap) (hid atype : String) (tNow : Nat) : Bool :=
  match List.lookup (hid, atype) recent with
  | some lastSent => !(tNow - lastSent < cooldownSeconds)
  | none => true

/-- `mark_alert_sent`: record `datetime.now(timezone.utc)` for this
`(household, type)` pair.  Prepending shadows the previous binding for
`List.lookup`. -/
def markAlertSent (recent : RecentMap) (hid atype : String) (tNow : Nat) : RecentMap :=
  ((hid, atype), tNow) :: recent

/-- The persisted de-duplication query of `check_anomalies`: is there an
alert with this household and type, `timestamp ≥ current_time - 2h`
(Nat subtraction: an epoch-crossing cutoff clips to `0`, matching every
document, just as every real timestamp exceeds a pre-epoch cutoff), and
`acknowledged == False`? -/
def recentAlertExists (store : List Alert) (hid atype : String) (tCurrent : Nat) : Bool :=
  store.any fun a =>
    a.household_id == hid && a.atype == atype &&
    decide (a.timestamp ≥ tCurrent - cooldownSeconds) && a.acknowledged == some false

/-- `save_alert`: set `_id` (household, timestamp and type, the ISO
timestamp rendered in decimal here), force `acknowledged := False`, stamp
`created_at` with the write-time clock, then `insert_one`. -/
def save_alert (a : Alert) (tWrite : Nat) : Alert :=
  { a with
    alert_id := some (a.household_id ++ "_" ++ toString a.timestamp ++ "_" ++ a.atype)
    acknowledged := some false
    created_at := some tWrite }

/-- One iteration of the de-duplication loop of `check_anomalies` over the
accumulator (`recent_alerts`, alert store, frontend pushes): both layers
must pass, then the alert is saved, pushed (the pushed dict is the one
`save_alert` just mutated) and marked sent.  The successive
`datetime.now()` calls inside the loop are collapsed to `tNow ≥ tCurrent`. -/
def process_one (hid : String) (tCurrent tNow : Nat)
    (acc : RecentMap × List Alert × List Alert) (a : Alert) :
    RecentMap × List Alert × List Alert :=
  let (recent, store, pushed) := acc
  if shouldSendAlert recent hid a.atype tNow
      && !(recentAlertExists store hid a.atype tCurrent) then
    (markAlertSent recent hid a.atype tNow,
     store ++ [save_alert a tNow],
     pushed ++ [save_alert a tNow])
  else acc

/-- `if last_event: self._update_state(state, last_event)` at the top of
`check_anomalies`. -/
def stateAfter (state0 : HouseholdDailyState) : Option Event → HouseholdDailyState
  | some e => updateState state0 e
  | none => state0

/-- `check_anomalies` (given the result of `get_baseline` and the
materialised household state): returns the full `anomalies` list, the
updated `recent_alerts`, the updated alert store and the list of alerts
pushed to the frontend — or the Python exception.  A missing baseline
short-circuits to `([], unchanged, unchanged, [])`.
`check_and_reset_daily_cache` only manages in-memory caches and is not
modelled. -/
def check_anomalies (hid : String) (baseline? : Option Baseline)
    (state0 : HouseholdDailyState) (lastEvent : Option Event)
    (recent : RecentMap) (store : List Alert) (tCurrent tNow : Nat) :
    Except String (List Alert × RecentMap × List Alert × List Alert) :=
  match baseline? with
  | none => .ok ([], recent, store, [])
  | some baseline =>
    let state := stateAfter state0 lastEvent
    do
      let r1 ← rule_missed_kitchen hid baseline state tCurrent
      let r2 ← rule_prolonged_inactivity hid state tCurrent
      let r3 := rule_excessive_bathroom hid baseline state tCurrent
      let r4 := rule_late_wake hid baseline state tCurrent
      let anoms := r1.toList ++ r2.toList ++ r3.toList ++ r4.toList
      let (recent', store', pushed) :=
        anoms.foldl (process_one hid tCurrent tNow) (recent, store, [])
      pure (anoms, recent', store', pushed)

/-! ## `get_baseline` -/

/-- A document of the `routine_baselines` collection, restricted to the
queried fields. -/
structure BaselineDoc where
  household_id : String
  baseline_type : String
  computed_at : Nat
  content : Baseline
deriving Repr, DecidableEq

/-- `self.baseline_cache : {household_id: {baseline, cached_at}}`. -/
abbrev BaselineCache : Type := List (String × (Baseline × Nat))

/-- `get_baseline`: a cache entry younger than 86400 s wins; otherwise the
most recent `rolling7` document for the household (sort by `computed_at`
descending, limit 1; the fold keeps the first of the ties, as the stable
descending sort does).  The cache refresh on a database hit only affects
later calls and is not part of the returned value. -/
def get_baseline (cache : BaselineCache) (db : List BaselineDoc)
    (hid : String) (tNow : Nat) : Option Baseline :=
  match List.lookup hid cache with
  | some (b, cachedAt) =>
    if tNow - cachedAt < 86400 then some b
    else latestRolling7 db hid
  | none => latestRolling7 db hid
where
  latestRolling7 (db : List BaselineDoc) (hid : String) : Option Baseline :=
    let cands := db.filter fun d =>
      d.household_id == hid && d.baseline_type == "rolling7"
    (cands.foldl (fun best d =>
      match best with
      | none => some d
      | some b => if d.computed_at > b.computed_at then some d else b) none).map
      (·.content)

/-! ## `update_state_on_event` -/

/-- `AnomalyDetector.CRITICAL_EVENTS`. -/
def CRITICAL_EVENTS : List String := ["door", "sos_button"]

/-- `update_state_on_event`: update the household state, and run the
immediate `check_anomalies` exactly when the event's `sensor_type` is in
`CRITICAL_EVENTS`.  The second component records whether the immediate
check was triggered. -/
def update_state_on_event (state : HouseholdDailyState) (event : Event) :
    HouseholdDailyState × Bool :=
  (updateState state event, CRITICAL_EVENTS.contains event.sensor_type)

/-! ## The alert subsystem as a transition system (for the dedup claim)

Operations that touch `recent_alerts` and the `alerts` collection:
an evaluation run (`check_anomalies`), the dashboard
`/alerts/{id}/acknowledge` endpoint (`$set {acknowledged: True}` on the
matching `_id`), and a process restart (which empties the in-memory
`recent_alerts` but keeps the database). -/

inductive AlertOp where
  | runCheck (hid : String) (baseline? : Option Baseline)
      (state : HouseholdDailyState) (lastEvent : Option Event) (tCurrent tNow : Nat)
  | ack (alertId : String)
  | restart

/-- The live state of the alert subsystem. -/
structure AlertSys where
  recent : RecentMap
  store : List Alert
deriving Repr

/-- One step of the alert subsystem.  All raising statements of
`check_anomalies` precede its first database write, so on an exception the
stores are unchanged. -/
def applyCheckResult (s : AlertSys) :
    Except String (List Alert × RecentMap × List Alert × List Alert) → AlertSys
  | .ok (_, recent', store', _) => ⟨recent', store'⟩
  | .error _ => s

def stepOp (s : AlertSys) (op : AlertOp) : AlertSys :=
  match op with
  | .runCheck hid b st le tC tN =>
    applyCheckResult s (check_anomalies hid b st le s.recent s.store tC tN)
  | .ack alertId =>
    { s with store := s.store.map fun a =>
        if a.alert_id == some alertId then { a with acknowledged := some true } else a }
  | .restart => { s with recent := [] }

/-- Run a sequence of operations from a fresh process with an empty alert
collection. -/
def runOps (ops : List AlertOp) : AlertSys :=
  ops.foldl stepOp ⟨[], []⟩

/-- Dedup invariant on the alert store: alerts of the same household and
type (in storage order) are more than the cooldown apart. -/
def GapOk (store : List Alert) : Prop :=
  store.Pairwise fun a b =>
    a.household_id = b.household_id → a.atype = b.atype →
      a.timestamp + cooldownSeconds < b.timestamp

/-- Every stored alert is still unacknowledged. -/
def AllUnack (store : List Alert) : Prop :=
  ∀ a ∈ store, a.acknowledged = some false

/-- A trace containing no acknowledgement operation. -/
def NoAck (ops : List AlertOp) : Prop :=
  ∀ op ∈ ops, ∀ alertId, op ≠ .ack alertId

/-! ## `routine_learner.py`: `aggregate_baselines` helpers -/

/-- `timestr2minutes` (nested in `aggregate_baselines`): textually the same
parser as `AnomalyDetector.time_to_minutes`. -/
def timestr2minutes (tstr : String) : Option Int :=
  match pySplit tstr ':' with
  | [h, m] =>
    match parsePyInt h, parsePyInt m with
    | some hv, some mv => some (hv * 60 + mv)
    | _, _ => none
  | _ => none

/-- Python `f"{n:02d}"` for the integers this code formats. -/
def pad2 (n : Int) : String :=
  if 0 ≤ n ∧ n < 10 then "0" ++ toString n else toString n

/-- The `f"{int(q//60):02d}:{int(q%60):02d}"` formatting of a
minutes-since-midnight quantity: float floor-division and float modulo,
then truncation of the (already integral, resp. nonnegative) parts —
i.e. floors for the nonnegative values that arise here. -/
def minutesToHHMM (q : ℚ) : String :=
  pad2 ⌊q / 60⌋ ++ ":" ++ pad2 ⌊q - 60 * ⌊q / 60⌋⌋

/-- `statistics.median`: middle element of the sorted data, or the mean of
the two middle elements for even length.  (Empty input raises in Python;
`stat_summary` only calls this on non-empty data, and the `getD` default
is never read then.) -/
def insertSorted (x : ℚ) : List ℚ → List ℚ
  | [] => [x]
  | y :: ys => if x ≤ y then x :: y :: ys else y :: insertSorted x ys

/-- Ascending sort by insertion (for a total order the sorted list is
unique, so this agrees with Python `sorted`). -/
def pySort (l : List ℚ) : List ℚ := l.foldr insertSorted []

/-- `statistics.median`: middle element of the sorted data, or the mean of
the two middle elements for even length.  (Empty input raises in Python;
`stat_summary` only calls this on non-empty data, and the `getD` default
is never read then.) -/
def pyMedian (l : List ℚ) : ℚ :=
  let s := pySort l
  let n := s.length
  if n % 2 = 1 then s.getD (n / 2) 0
  else (s.getD (n / 2 - 1) 0 + s.getD (n / 2) 0) / 2

/-- `statistics.mean`. -/
def pyMean (l : List ℚ) : ℚ := l.sum / l.length

/-- The time-valued fields of the dict built by the nested `stat_summary`
helper (the `std_dev_minutes` field is `statSummaryStd` below). -/
structure TimeStats where
  median : String
  mean : String
  earliest : String
  latest : String
deriving Repr, DecidableEq

/-- `values = [timestr2minutes(x) for x in data if x]` — parse results of
the truthy entries, `None`s included. -/
def rawMinutes (data : List String) : List (Option Int) :=
  (data.filter (fun x => x ≠ "")).map timestr2minutes

/-- The successfully parsed minute counts, as exact rationals (Python does
its statistics in floats; the inputs are integers, and the claims proved
here involve only exactly-representable results). -/
def qValues (data : List String) : List ℚ :=
  (rawMinutes data).filterMap (fun o => o.map (fun n => (n : ℚ)))

/-- `stat_summary` (nested in `aggregate_baselines`), time-valued fields:
`values = [timestr2minutes(x) for x in data if x]` keeps `None` results of
the parser in the list; an empty `values` yields `{}` (here `none`), and a
`None` among a non-empty `values` makes `statistics.median`'s sort (or the
formatting) raise `TypeError`.  Otherwise median/mean/min/max of the
minute values are formatted back to `"HH:MM"`. -/
def stat_summary_times (data : List String) : Except String (Option TimeStats) :=
  let raw := rawMinutes data
  if raw.isEmpty then .ok none
  else if raw.contains none then .error "TypeError"
  else
    let values : List ℚ := qValues data
    .ok (some
      { median := minutesToHHMM (pyMedian values)
        mean := minutesToHHMM (pyMean values)
        earliest := minutesToHHMM (values.foldl min (values.headD 0))
        latest := minutesToHHMM (values.foldl max (values.headD 0)) })

/-- `stat_summary`, the `std_dev_minutes` field:
`round(statistics.stdev(values), 2) if len(values) > 1 else 0` — the
sample standard deviation, literal `0` below two data points.  The
2-decimal display rounding of the float is not modelled. -/
noncomputable def statSummaryStd (data : List String) : ℝ :=
  let values : List ℚ := qValues data
  if values.length > 1 then
    Real.sqrt ((values.map (fun x => ((x : ℝ) - (pyMean values : ℚ)) ^ 2)).sum
      / (values.length - 1))
  else 0

/-- A `daily_routines` document, restricted to the activity-window fields
the `activity_duration` aggregation of `aggregate_baselines` reads. -/
structure RoutineDoc where
  activity_start : Option String
  activity_end : Option String
deriving Repr, DecidableEq

/-- Truthy extraction `[d.get(k) for d in docs if d.get(k)]`. -/
def truthyField (f : RoutineDoc → Option String) (docs : List RoutineDoc) : List String :=
  docs.filterMap fun d =>
    match f d with
    | some s => if s ≠ "" then some s else none
    | none => none

/-- The duration list of the `activity_duration` aggregation in
`aggregate_baselines`:
`[timestr2minutes(e) - timestr2minutes(s) for s, e in
zip(activity_starts, activity_ends) if s and e]`, where `activity_starts`
and `activity_ends` were each filtered for truthiness *separately* before
the `zip`.  (The `if s and e` guard is vacuous after that filtering.)  A
`None` from the parser would make the subtraction raise; durations are
kept as `Option` so the value is still first-class here. -/
def activity_durations_code (docs : List RoutineDoc) : List (Option Int) :=
  let starts := truthyField (·.activity_start) docs
  let ends := truthyField (·.activity_end) docs
  ((starts.zip ends).filter fun (s, e) => s ≠ "" && e ≠ "").map fun (s, e) =>
    match timestr2minutes e, timestr2minutes s with
    | some ev, some sv => some (ev - sv)
    | _, _ => none

/-- Modelled from the spec: "Activity-duration stats require a valid start
*and* end; pairs with either missing are excluded" — each per-day duration
comes from the `activity_start`/`activity_end` pair of one and the same
`DailyRoutine` record, and a record missing either endpoint contributes
nothing. -/
def activity_durations_spec (docs : List RoutineDoc) : List (Option Int) :=
  docs.filterMap fun d =>
    match d.activity_start, d.activity_end with
    | some s, some e =>
      if s ≠ "" && e ≠ "" then
        some (match timestr2minutes e, timestr2minutes s with
          | some ev, some sv => some (ev - sv)
          | _, _ => none)
      else none
    | _, _ => none

/-! ## Firing conditions of the guarded rules, as transparent predicates -/

/-- The condition under which the code's *missed kitchen* rule appends an
anomaly: wake detected, kitchen not visited, the baseline's kitchen
`latest` present, non-empty and parsing to a *non-zero* minute count `lm`,
and `current_minutes > lm + 30`. -/
def MissedCond (b : Baseline) (st : HouseholdDailyState) (tC : Nat) : Prop :=
  st.wake_detected = true ∧ st.kitchen_visited = false ∧
  ∃ l lm, b.first_kitchen_time.latest = some l ∧ l ≠ "" ∧
    time_to_minutes l = some lm ∧ lm ≠ 0 ∧ (currentMinutes tC : Int) > lm + 30

/-- The condition under which the code's *excessive bathroom visits* rule
appends an anomaly: `max_daily` present and *non-zero*, and
`bathroom_count > max_daily + 2`. -/
def ExcessiveCond (b : Baseline) (st : HouseholdDailyState) : Prop :=
  ∃ md, b.bathroom_visits.max_daily = some md ∧ md ≠ 0 ∧
    (st.bathroom_count : Int) > md + 2

/-! ## Concrete fixtures used by witnesses and counterexamples -/

/-- A bed-exit event (wake trigger) at 07:10. -/
def evBedFalse : Event :=
  ⟨"h1", "bed_presence", "bedroom", .str "False", "2024-01-02T07:10:00"⟩

/-- A different bed-exit event, later the same day. -/
def evBedFalse2 : Event :=
  ⟨"h1", "bed_presence", "bedroom", .str "false", "2024-01-02T09:00:00"⟩

/-- An event whose `sensor_type` is the spec's `panic`. -/
def evPanic : Event :=
  ⟨"h1", "panic", "living_room", .str "True", "2024-01-02T08:30:00"⟩

/-- An SOS-button event (the code's second critical type). -/
def evSos : Event :=
  ⟨"h1", "sos_button", "living_room", .str "True", "2024-01-02T08:30:00"⟩

/-- A kitchen motion event (non-critical). -/
def evMotionKitchen : Event :=
  ⟨"h1", "motion", "kitchen", .str "True", "2024-01-02T08:30:00"⟩

/-- Scenario A state: woke at 06:30, no kitchen visit. -/
def stScenarioA : HouseholdDailyState :=
  { initState with wake_detected := true, wake_up_time := some "06:30" }

/-- Scenario A baseline: kitchen `median = 07:30`, `latest = 08:00`. -/
def blScenarioA : Baseline :=
  ⟨⟨some "07:30", some "08:00"⟩, ⟨none, none⟩, ⟨none, none⟩⟩

/-- A baseline whose kitchen `latest` is midnight, `"00:00"`. -/
def blZeroLatest : Baseline :=
  ⟨⟨some "00:00", some "00:00"⟩, ⟨none, none⟩, ⟨none, none⟩⟩

/-- Scenario B state: 10 bathroom visits. -/
def stScenarioB : HouseholdDailyState :=
  { initState with bathroom_count := 10 }

/-- Scenario B baseline: bathroom `daily_median = 5`, `max_daily = 6`. -/
def blScenarioB : Baseline :=
  ⟨⟨none, none⟩, ⟨none, none⟩, ⟨some 5, some 6⟩⟩

/-- A baseline whose bathroom `max_daily` is the integer `0`. -/
def blMaxZero : Baseline :=
  ⟨⟨none, none⟩, ⟨none, none⟩, ⟨none, some 0⟩⟩

/-- A state with 5 bathroom visits (and nothing else). -/
def stBath5 : HouseholdDailyState :=
  { initState with bathroom_count := 5 }

/-- Scenario B state with an unparsable `last_motion_time`. -/
def stBadMotion : HouseholdDailyState :=
  { stScenarioB with last_motion_time := some "not-a-timestamp" }

/-- Scenario B state that also woke up, with an unparsable
`wake_up_time`. -/
def stBadWake : HouseholdDailyState :=
  { stScenarioB with wake_detected := true, wake_up_time := some "garbage" }

/-- Two daily-routine records: the first has a start but no end. -/
def docsZip : List RoutineDoc :=
  [⟨some "08:00", none⟩, ⟨some "09:00", some "21:00"⟩]

/-- A trace: an alert fires at `t = 0`, is acknowledged, the process
restarts, and the same condition fires again at `t = 3600` (one hour
later, inside the 2-hour cooldown). -/
def opsAck : List AlertOp :=
  [ .runCheck "h1" (some blScenarioB) stScenarioB none 0 0
  , .ack "h1_0_excessive_bathroom_visits"
  , .restart
  , .runCheck "h1" (some blScenarioB) stScenarioB none 3600 3600 ]

/-- The same two evaluation runs without the acknowledgement. -/
def opsNoAck : List AlertOp :=
  [ .runCheck "h1" (some blScenarioB) stScenarioB none 0 0
  , .runCheck "h1" (some blScenarioB) stScenarioB none 3600 3600 ]

/-! ## Helper lemmas: field effects of the `_update_state` statements -/

lemma stepBed_of_wake_detected (e : Event) (s : HouseholdDailyState)
    (h : s.wake_detected = true) : stepBed e s = s := by
  unfold stepBed
  simp [h]

lemma stepBed_fields (e : Event) (s : HouseholdDailyState) :
    (stepBed e s).kitchen_visited = s.kitchen_visited ∧
    (stepBed e s).first_kitchen_time = s.first_kitchen_time ∧
    (stepBed e s).bathroom_count = s.bathroom_count := by
  unfold stepBed
  repeat' split <;> simp

lemma stepKitchen_fields (e : Event) (s : HouseholdDailyState) :
    (stepKitchen e s).wake_detected = s.wake_detected ∧
    (stepKitchen e s).wake_up_time = s.wake_up_time ∧
    (stepKitchen e s).bathroom_count = s.bathroom_count := by
  unfold stepKitchen
  repeat' split <;> simp

lemma stepKitchen_of_visited (e : Event) (s : HouseholdDailyState)
    (h : s.kitchen_visited = true) : stepKitchen e s = s := by
  unfold stepKitchen
  simp [h]

lemma stepBathroom_fields (e : Event) (s : HouseholdDailyState) :
    (stepBathroom e s).wake_detected = s.wake_detected ∧
    (stepBathroom e s).wake_up_time = s.wake_up_time ∧
    (stepBathroom e s).kitchen_visited = s.kitchen_visited ∧
    (stepBathroom e s).first_kitchen_time = s.first_kitchen_time ∧
    s.bathroom_count ≤ (stepBathroom e s).bathroom_count := by
  unfold stepBathroom
  repeat' split <;> simp

lemma stepMotion_fields (e : Event) (s : HouseholdDailyState) :
    (stepMotion e s).wake_detected = s.wake_detected ∧
    (stepMotion e s).wake_up_time = s.wake_up_time ∧
    (stepMotion e s).kitchen_visited = s.kitchen_visited ∧
    (stepMotion e s).first_kitchen_time = s.first_kitchen_time ∧
    (stepMotion e s).bathroom_count = s.bathroom_count := by
  unfold stepMotion
  repeat' split <;> simp

lemma stepDoor_fields (e : Event) (s : HouseholdDailyState) :
    (stepDoor e s).wake_detected = s.wake_detected ∧
    (stepDoor e s).wake_up_time = s.wake_up_time ∧
    (stepDoor e s).kitchen_visited = s.kitchen_visited ∧
    (stepDoor e s).first_kitchen_time = s.first_kitchen_time ∧
    (stepDoor e s).bathroom_count = s.bathroom_count := by
  unfold stepDoor
  repeat' split <;> simp

/-- Reachable-state invariant: a "first occurrence" field is only ever set
together with its flag. -/
def StateInv (s : HouseholdDailyState) : Prop :=
  (s.wake_up_time ≠ none → s.wake_detected = true) ∧
  (s.first_kitchen_time ≠ none → s.kitchen_visited = true)

lemma stateInv_init : StateInv initState := by
  constructor <;> simp [initState]

lemma stateInv_updateState (s : HouseholdDailyState) (e : Event)
    (h : StateInv s) : StateInv (updateState s e) := by
  obtain ⟨hw, hk⟩ := h
  unfold updateState
  have hb : StateInv (stepBed e s) := by
    unfold StateInv stepBed
    constructor <;> (repeat' split) <;> simp_all
  have hkk : StateInv (stepKitchen e (stepBed e s)) := by
    obtain ⟨h1, h2⟩ := hb
    unfold StateInv stepKitchen
    constructor <;> (repeat' split) <;> simp_all
  have hbb : StateInv (stepBathroom e (stepKitchen e (stepBed e s))) := by
    obtain ⟨h1, h2⟩ := hkk
    unfold StateInv stepBathroom
    constructor <;> (repeat' split) <;> simp_all
  have hmm : StateInv (stepMotion e (stepBathroom e (stepKitchen e (stepBed e s)))) := by
    obtain ⟨h1, h2⟩ := hbb
    unfold StateInv stepMotion
    constructor <;> (repeat' split) <;> simp_all
  obtain ⟨h1, h2⟩ := hmm
  unfold StateInv stepDoor
  constructor <;> (repeat' split) <;> simp_all

lemma stateInv_applyEvents (es : List Event) : StateInv (applyEvents es) := by
  suffices H : ∀ s, StateInv s → StateInv (es.foldl updateState s) from
    H initState stateInv_init
  induction es with
  | nil => exact fun s h => h
  | cons e rest ih =>
    intro s h
    exact ih (updateState s e) (stateInv_updateState s e h)

lemma updateState_wake_of_detected (s : HouseholdDailyState) (e : Event)
    (h : s.wake_detected = true) :
    (updateState s e).wake_up_time = s.wake_up_time := by
  unfold updateState
  rw [stepBed_of_wake_detected e s h]
  rw [(stepDoor_fields e _).2.1, (stepMotion_fields e _).2.1,
    (stepBathroom_fields e _).2.1, (stepKitchen_fields e s).2.1]

lemma updateState_kitchen_of_visited (s : HouseholdDailyState) (e : Event)
    (h : s.kitchen_visited = true) :
    (updateState s e).first_kitchen_time = s.first_kitchen_time := by
  unfold updateState
  have hb := stepBed_fields e s
  rw [(stepDoor_fields e _).2.2.2.1, (stepMotion_fields e _).2.2.2.1,
    (stepBathroom_fields e _).2.2.2.1,
    stepKitchen_of_visited e _ (by rw [hb.1]; exact h), hb.2.1]

lemma updateState_bathroom_mono (s : HouseholdDailyState) (e : Event) :
    s.bathroom_count ≤ (updateState s e).bathroom_count := by
  unfold updateState
  rw [(stepDoor_fields e _).2.2.2.2, (stepMotion_fields e _).2.2.2.2]
  calc s.bathroom_count
      = (stepKitchen e (stepBed e s)).bathroom_count := by
        rw [(stepKitchen_fields e _).2.2, (stepBed_fields e s).2.2]
    _ ≤ (stepBathroom e (stepKitchen e (stepBed e s))).bathroom_count :=
        (stepBathroom_fields e _).2.2.2.2

lemma updateState_bed_event (s : HouseholdDailyState) (e : Event)
    (h1 : e.sensor_type = "bed_presence") : updateState s e = stepBed e s := by
  unfold updateState stepKitchen stepBathroom stepMotion stepDoor
  simp [h1]

lemma bed_event_sets_wake (e : Event) (h1 : e.sensor_type = "bed_presence")
    (h2 : isFalseVal e.value = true) :
    (updateState initState e).wake_up_time = some (hhmmSlice e.timestamp) ∧
    (updateState initState e).wake_detected = true := by
  rw [updateState_bed_event _ _ h1]
  unfold stepBed
  simp [h1, h2, initState]

/-! ## C3 — first-occurrence fields are write-once, counters monotone -/

/-- C3: on any state reached by replaying events through `_update_state`,
a further event never changes `wake_up_time` or `first_kitchen_time` once
they are set, and never decreases `bathroom_count`; moreover, applying the
same bed_presence-false event twice to a fresh state sets `wake_up_time`
exactly once, and a later different bed_presence-false event does not
change it. -/
theorem update_state_first_occurrence_monotone (es : List Event) (e : Event) :
    (∀ t, (applyEvents es).wake_up_time = some t →
      (updateState (applyEvents es) e).wake_up_time = some t) ∧
    (∀ t, (applyEvents es).first_kitchen_time = some t →
      (updateState (applyEvents es) e).first_kitchen_time = some t) ∧
    (applyEvents es).bathroom_count ≤ (updateState (applyEvents es) e).bathroom_count ∧
    (∀ e1 e2 : Event, e1.sensor_type = "bed_presence" → isFalseVal e1.value = true →
      e2.sensor_type = "bed_presence" → isFalseVal e2.value = true →
      (updateState initState e1).wake_up_time = some (hhmmSlice e1.timestamp) ∧
      (updateState (updateState initState e1) e1).wake_up_time
        = some (hhmmSlice e1.timestamp) ∧
      (updateState (updateState initState e1) e2).wake_up_time
        = some (hhmmSlice e1.timestamp)) := by
  obtain ⟨hinvW, hinvK⟩ := stateInv_applyEvents es
  refine ⟨?_, ?_, updateState_bathroom_mono _ _, ?_⟩
  · intro t ht
    have hw : (applyEvents es).wake_detected = true := hinvW (by rw [ht]; simp)
    rw [updateState_wake_of_detected _ _ hw]
    exact ht
  · intro t ht
    have hk : (applyEvents es).kitchen_visited = true := hinvK (by rw [ht]; simp)
    rw [updateState_kitchen_of_visited _ _ hk]
    exact ht
  · intro e1 e2 h1 h2 h3 h4
    obtain ⟨hset, hdet⟩ := bed_event_sets_wake e1 h1 h2
    exact ⟨hset,
      by rw [updateState_wake_of_detected _ _ hdet]; exact hset,
      by rw [updateState_wake_of_detected _ _ hdet]; exact hset⟩

/-- C3 witness: a wake at 07:10; a kitchen event, a repeat of the same
bed event and a later 09:00 bed event all leave `wake_up_time` at 07:10;
the bathroom count does not drop. -/
theorem update_state_first_occurrence_monotone_witness :
    (applyEvents [evBedFalse]).wake_up_time = some "07:10" ∧
    (updateState (applyEvents [evBedFalse]) evMotionKitchen).wake_up_time = some "07:10" ∧
    (updateState (updateState initState evBedFalse) evBedFalse).wake_up_time = some "07:10" ∧
    (updateState (updateState initState evBedFalse) evBedFalse2).wake_up_time = some "07:10" ∧
    (applyEvents [evBedFalse]).bathroom_count
      ≤ (updateState (applyEvents [evBedFalse]) evMotionKitchen).bathroom_count := by
  have h := update_state_first_occurrence_monotone [evBedFalse] evMotionKitchen
  have hslice : hhmmSlice evBedFalse.timestamp = "07:10" := by decide
  have hsame := h.2.2.2 evBedFalse evBedFalse rfl (by decide) rfl (by decide)
  have hdiff := h.2.2.2 evBedFalse evBedFalse2 rfl (by decide) rfl (by decide)
  refine ⟨by decide, ?_, ?_, ?_, h.2.2.1⟩
  · exact h.1 "07:10" (by decide)
  · rw [← hslice]; exact hsame.2.1
  · rw [← hslice]; exact hdiff.2.2

/-! ## Helper lemmas: characterisation of the anomaly rules -/

lemma rule_missed_kitchen_char (hid : String) (b : Baseline)
    (st : HouseholdDailyState) (tC : Nat) (o : Option Alert)
    (h : rule_missed_kitchen hid b st tC = .ok o) :
    ((o ≠ none) ↔ MissedCond b st tC) ∧
    (∀ a, o = some a → a = mkAnomaly hid "missed_kitchen_activity" "medium" tC) := by
  unfold rule_missed_kitchen at h
  unfold MissedCond
  repeat' split at h
  all_goals try (injection h with h)
  all_goals try subst h
  all_goals simp_all

lemma rule_prolonged_shape (hid : String) (st : HouseholdDailyState)
    (tC : Nat) (o : Option Alert)
    (h : rule_prolonged_inactivity hid st tC = .ok o) :
    ∀ a, o = some a → a = mkAnomaly hid "prolonged_inactivity" "high" tC := by
  unfold rule_prolonged_inactivity at h
  repeat' split at h
  all_goals try (injection h with h)
  all_goals try subst h
  all_goals simp_all

lemma rule_excessive_char (hid : String) (b : Baseline)
    (st : HouseholdDailyState) (tC : Nat) :
    ((rule_excessive_bathroom hid b st tC ≠ none) ↔ ExcessiveCond b st) ∧
    (∀ a, rule_excessive_bathroom hid b st tC = some a →
      a = mkAnomaly hid "excessive_bathroom_visits" "medium" tC) := by
  unfold rule_excessive_bathroom ExcessiveCond
  repeat' split
  all_goals simp_all

lemma rule_late_shape (hid : String) (b : Baseline)
    (st : HouseholdDailyState) (tC : Nat) :
    ∀ a, rule_late_wake hid b st tC = some a →
      a = mkAnomaly hid "late_wake_up" "low" tC := by
  unfold rule_late_wake
  repeat' split
  all_goals simp_all

lemma rule_late_none_of_bad_wake (hid : String) (b : Baseline)
    (st : HouseholdDailyState) (tC : Nat) (w : String)
    (hw : st.wake_up_time = some w) (hbad : time_to_minutes w = none) :
    rule_late_wake hid b st tC = none := by
  unfold rule_late_wake
  repeat' split
  all_goals simp_all

lemma check_anomalies_ok_decomp_full (hid : String) (b : Baseline)
    (st : HouseholdDailyState) (le : Option Event) (recent : RecentMap)
    (store : List Alert) (tC tN : Nat) (anoms : List Alert)
    (r' : RecentMap) (s' p' : List Alert)
    (h : check_anomalies hid (some b) st le recent store tC tN
      = .ok (anoms, r', s', p')) :
    ∃ o1 o2,
      rule_missed_kitchen hid b (stateAfter st le) tC = .ok o1 ∧
      rule_prolonged_inactivity hid (stateAfter st le) tC = .ok o2 ∧
      anoms = o1.toList ++ o2.toList
        ++ (rule_excessive_bathroom hid b (stateAfter st le) tC).toList
        ++ (rule_late_wake hid b (stateAfter st le) tC).toList ∧
      (r', s', p') = anoms.foldl (process_one hid tC tN) (recent, store, []) := by
  simp only [check_anomalies] at h
  cases h1 : rule_missed_kitchen hid b (stateAfter st le) tC with
  | error e => rw [h1] at h; simp [Bind.bind, Except.bind] at h
  | ok o1 =>
    cases h2 : rule_prolonged_inactivity hid (stateAfter st le) tC with
    | error e => rw [h1, h2] at h; simp [Bind.bind, Except.bind] at h
    | ok o2 =>
      rw [h1, h2] at h
      simp [Bind.bind, Except.bind, Pure.pure, Except.pure] at h
      refine ⟨o1, o2, rfl, rfl, by simpa [List.append_assoc] using h.1.symm, ?_⟩
      rw [← h.1]
      simp only [List.foldl_append]
      exact h.2.symm

lemma check_anomalies_ok_decomp (hid : String) (b : Baseline)
    (st : HouseholdDailyState) (recent : RecentMap) (store : List Alert)
    (tC tN : Nat) (anoms : List Alert) (r' : RecentMap) (s' p' : List Alert)
    (h : check_anomalies hid (some b) st none recent store tC tN
      = .ok (anoms, r', s', p')) :
    ∃ o1 o2,
      rule_missed_kitchen hid b st tC = .ok o1 ∧
      rule_prolonged_inactivity hid st tC = .ok o2 ∧
      anoms = o1.toList ++ o2.toList ++ (rule_excessive_bathroom hid b st tC).toList
        ++ (rule_late_wake hid b st tC).toList := by
  obtain ⟨o1, o2, h1, h2, ha, _⟩ :=
    check_anomalies_ok_decomp_full hid b st none recent store tC tN anoms r' s' p' h
  exact ⟨o1, o2, h1, h2, ha⟩

lemma countP_toList_zero (o : Option Alert) (p : Alert → Bool)
    (h : ∀ a, o = some a → p a = false) : o.toList.countP p = 0 := by
  cases o <;> simp_all

/-! ## Helper lemmas: the de-duplication loop and its invariant -/

lemma process_one_cases (hid : String) (tC tN : Nat)
    (acc : RecentMap × List Alert × List Alert) (a : Alert) :
    process_one hid tC tN acc a = acc ∨
    (shouldSendAlert acc.1 hid a.atype tN = true ∧
     recentAlertExists acc.2.1 hid a.atype tC = false ∧
     process_one hid tC tN acc a =
       (markAlertSent acc.1 hid a.atype tN, acc.2.1 ++ [save_alert a tN],
        acc.2.2 ++ [save_alert a tN])) := by
  obtain ⟨recent, store, pushed⟩ := acc
  simp only [process_one]
  split
  · rename_i hcond
    right
    rw [Bool.and_eq_true, Bool.not_eq_true'] at hcond
    exact ⟨hcond.1, hcond.2, rfl⟩
  · exact Or.inl rfl

lemma process_one_inv (hid : String) (tC tN : Nat)
    (acc : RecentMap × List Alert × List Alert) (a : Alert)
    (hh : a.household_id = hid) (ht : a.timestamp = tC)
    (hg : GapOk acc.2.1) (hu : AllUnack acc.2.1) :
    GapOk (process_one hid tC tN acc a).2.1 ∧
    AllUnack (process_one hid tC tN acc a).2.1 := by
  rcases process_one_cases hid tC tN acc a with heq | ⟨hs, hr, heq⟩
  · rw [heq]; exact ⟨hg, hu⟩
  · rw [heq]
    have hfact : ∀ x ∈ acc.2.1, x.household_id = hid → x.atype = a.atype →
        x.timestamp + cooldownSeconds < tC := by
      intro x hx hxh hxa
      have hxu := hu x hx
      unfold recentAlertExists at hr
      rw [List.any_eq_false] at hr
      have hx' := hr x hx
      simp [hxh, hxa, hxu, cooldownSeconds] at hx'
      simp [cooldownSeconds]
      omega
    constructor
    · unfold GapOk at hg ⊢
      rw [List.pairwise_append]
      refine ⟨hg, List.pairwise_singleton _ _, ?_⟩
      intro x hx y hy
      simp only [List.mem_singleton] at hy
      subst hy
      intro hxy1 hxy2
      have hfh : (save_alert a tN).household_id = a.household_id := rfl
      have hft : (save_alert a tN).atype = a.atype := rfl
      have hfs : (save_alert a tN).timestamp = a.timestamp := rfl
      rw [hfs, ht]
      exact hfact x hx (by rw [hxy1, hfh, hh]) (by rw [hxy2, hft])
    · intro x hx
      rcases List.mem_append.1 hx with hx | hx
      · exact hu x hx
      · simp only [List.mem_singleton] at hx
        subst hx
        rfl

lemma foldl_process_inv (hid : String) (tC tN : Nat) (anoms : List Alert)
    (hall : ∀ a ∈ anoms, a.household_id = hid ∧ a.timestamp = tC) :
    ∀ acc : RecentMap × List Alert × List Alert,
      GapOk acc.2.1 → AllUnack acc.2.1 →
      GapOk (anoms.foldl (process_one hid tC tN) acc).2.1 ∧
      AllUnack (anoms.foldl (process_one hid tC tN) acc).2.1 := by
  induction anoms with
  | nil => exact fun acc hg hu => ⟨hg, hu⟩
  | cons a rest ih =>
    intro acc hg hu
    have hmem : a ∈ a :: rest := List.mem_cons_self a rest
    have h1 := process_one_inv hid tC tN acc a (hall a hmem).1 (hall a hmem).2 hg hu
    exact ih (fun x hx => hall x (List.mem_cons_of_mem a hx)) _ h1.1 h1.2

lemma check_anoms_fields (hid : String) (b : Baseline)
    (stx : HouseholdDailyState) (tC : Nat) (o1 o2 : Option Alert)
    (h1 : rule_missed_kitchen hid b stx tC = .ok o1)
    (h2 : rule_prolonged_inactivity hid stx tC = .ok o2) :
    ∀ a ∈ o1.toList ++ o2.toList ++ (rule_excessive_bathroom hid b stx tC).toList
      ++ (rule_late_wake hid b stx tC).toList,
      a.household_id = hid ∧ a.timestamp = tC := by
  have c1 := (rule_missed_kitchen_char hid b stx tC o1 h1).2
  have c2 := rule_prolonged_shape hid stx tC o2 h2
  have c3 := (rule_excessive_char hid b stx tC).2
  have c4 := rule_late_shape hid b stx tC
  intro a ha
  rcases List.mem_append.1 ha with ha | h4
  · rcases List.mem_append.1 ha with ha | h3
    · rcases List.mem_append.1 ha with h1m | h2m
      · cases o1 with
        | none => simp at h1m
        | some y =>
          simp only [Option.toList_some, List.mem_singleton] at h1m
          rw [h1m, c1 y rfl]
          exact ⟨rfl, rfl⟩
      · cases o2 with
        | none => simp at h2m
        | some y =>
          simp only [Option.toList_some, List.mem_singleton] at h2m
          rw [h2m, c2 y rfl]
          exact ⟨rfl, rfl⟩
    · cases hy : rule_excessive_bathroom hid b stx tC with
      | none => rw [hy] at h3; simp at h3
      | some y =>
        rw [hy] at h3
        simp only [Option.toList_some, List.mem_singleton] at h3
        rw [h3, c3 y hy]
        exact ⟨rfl, rfl⟩
  · cases hy : rule_late_wake hid b stx tC with
    | none => rw [hy] at h4; simp at h4
    | some y =>
      rw [hy] at h4
      simp only [Option.toList_some, List.mem_singleton] at h4
      rw [h4, c4 y hy]
      exact ⟨rfl, rfl⟩

lemma stepOp_inv (s : AlertSys) (op : AlertOp)
    (hop : ∀ alertId, op ≠ .ack alertId)
    (hg : GapOk s.store) (hu : AllUnack s.store) :
    GapOk (stepOp s op).store ∧ AllUnack (stepOp s op).store := by
  cases op with
  | restart => exact ⟨hg, hu⟩
  | ack alertId => exact absurd rfl (hop alertId)
  | runCheck hid b? st le tC tN =>
    simp only [stepOp]
    cases b? with
    | none => exact ⟨hg, hu⟩
    | some b =>
      cases hres : check_anomalies hid (some b) st le s.recent s.store tC tN with
      | error e => exact ⟨hg, hu⟩
      | ok quad =>
        obtain ⟨anoms, recent', store', pushed⟩ := quad
        obtain ⟨o1, o2, h1, h2, ha, hfold⟩ := check_anomalies_ok_decomp_full hid b
          st le s.recent s.store tC tN anoms recent' store' pushed hres
        have hall := check_anoms_fields hid b (stateAfter st le) tC o1 o2 h1 h2
        rw [← ha] at hall
        have hinv := foldl_process_inv hid tC tN anoms hall
          (s.recent, s.store, []) hg hu
        have hst : store' = (anoms.foldl (process_one hid tC tN)
            (s.recent, s.store, [])).2.1 := by
          rw [← hfold]
        show GapOk store' ∧ AllUnack store'
        rw [hst]
        exact hinv

lemma runOps_inv_aux : ∀ (ops : List AlertOp) (s : AlertSys), NoAck ops →
    GapOk s.store → AllUnack s.store →
    GapOk (ops.foldl stepOp s).store ∧ AllUnack (ops.foldl stepOp s).store := by
  intro ops
  induction ops with
  | nil => exact fun s _ hg hu => ⟨hg, hu⟩
  | cons op rest ih =>
    intro s hno hg hu
    have h1 := stepOp_inv s op
      (fun alertId => hno op (List.mem_cons_self op rest) alertId) hg hu
    exact ih _ (fun o ho alertId => hno o (List.mem_cons_of_mem op ho) alertId)
      h1.1 h1.2

lemma runOps_inv (ops : List AlertOp) (hno : NoAck ops) :
    GapOk (runOps ops).store ∧ AllUnack (runOps ops).store :=
  runOps_inv_aux ops ⟨[], []⟩ hno List.Pairwise.nil (by intro a ha; simp at ha)

/-! ## C10 — `save_alert` always persists an unacknowledged alert -/

/-- C10: every alert written by `save_alert` has `acknowledged = False` and
a `created_at` generated at write time, regardless of the fields the input
anomaly dict already carries (here: for every input `Alert`, including one
already marked acknowledged or already carrying a `created_at`). -/
theorem save_alert_starts_unacknowledged (a : Alert) (tWrite : Nat) :
    (save_alert a tWrite).acknowledged = some false ∧
    (save_alert a tWrite).created_at = some tWrite :=
  ⟨rfl, rfl⟩

/-! ## C4 — which sensor types trigger an immediate evaluation -/

/-- C4, counterexample: the claim's critical set is `{door, panic}` and it
says a `panic` event triggers an immediate evaluation; but
`CRITICAL_EVENTS = {"door", "sos_button"}`, so the `panic` event does not
trigger one. -/
theorem panic_event_not_critical_counterexample :
    evPanic.sensor_type = "panic" ∧
    (update_state_on_event initState evPanic).2 = false ∧
    CRITICAL_EVENTS = ["door", "sos_button"] := by
  refine ⟨rfl, ?_, rfl⟩
  decide

/-- C4, amended: `update_state_on_event` triggers the immediate
`check_anomalies` exactly when the event's `sensor_type` is in
`CRITICAL_EVENTS = {"door", "sos_button"}`; an `sos_button` event triggers
it, and neither a `motion` nor a `panic` event does. -/
theorem update_state_on_event_critical_iff :
    (∀ (s : HouseholdDailyState) (e : Event),
      (update_state_on_event s e).2 = true ↔
        (e.sensor_type = "door" ∨ e.sensor_type = "sos_button")) ∧
    (update_state_on_event initState evSos).2 = true ∧
    (update_state_on_event initState evMotionKitchen).2 = false := by
  refine ⟨fun s e => ?_, by decide, by decide⟩
  simp [update_state_on_event, CRITICAL_EVENTS, List.contains, beq_iff_eq]

/-! ## C1 — the two suppression layers and the dedup guarantee -/

/-- C1, counterexample: an `excessive_bathroom_visits` alert is persisted
at `t = 0` and acknowledged; the process restarts (emptying the in-memory
`recent_alerts`); the same condition is evaluated again at `t = 3600 s`.
Both layers pass — the in-memory record is gone and the persisted query
filters on `acknowledged: False` — so a second alert is persisted only
3600 s apart, inside the 2-hour cooldown, refuting the claimed dedup
guarantee. -/
theorem alert_dedup_ack_counterexample :
    (runOps opsAck).store.map (fun a => (a.household_id, a.atype, a.timestamp)) =
      [("h1", "excessive_bathroom_visits", 0),
       ("h1", "excessive_bathroom_visits", 3600)] ∧
    3600 - 0 < cooldownSeconds :=
  ⟨by decide, by decide⟩

/-- C1, amended: (1) as claimed, `check_anomalies` persists and pushes an
alert only if both suppression layers pass — the in-memory
`should_send_alert` check and the persisted unacknowledged-within-window
query; (2) the claimed consequence holds *provided no alert is
acknowledged*: over any acknowledgement-free trace, any two persisted
alerts with the same household and type are more than
`ALERT_COOLDOWN_HOURS` apart (each later one is beyond the cooldown of
every earlier one).  With an acknowledgement inside the window the
guarantee fails — see the counterexample. -/
theorem alert_emission_requires_both_layers :
    (∀ (hid : String) (tC tN : Nat)
      (acc : RecentMap × List Alert × List Alert) (a : Alert),
      process_one hid tC tN acc a ≠ acc →
      shouldSendAlert acc.1 hid a.atype tN = true ∧
      recentAlertExists acc.2.1 hid a.atype tC = false) ∧
    (∀ ops : List AlertOp, NoAck ops →
      ∀ (i j : Nat) (hi : i < (runOps ops).store.length)
        (hj : j < (runOps ops).store.length), i < j →
        ((runOps ops).store[i].household_id = (runOps ops).store[j].household_id →
          (runOps ops).store[i].atype = (runOps ops).store[j].atype →
          (runOps ops).store[i].timestamp + cooldownSeconds
            < (runOps ops).store[j].timestamp)) := by
  constructor
  · intro hid tC tN acc a hne
    rcases process_one_cases hid tC tN acc a with heq | ⟨hs, hr, _⟩
    · exact absurd heq hne
    · exact ⟨hs, hr⟩
  · intro ops hno
    have h := (runOps_inv ops hno).1
    exact List.pairwise_iff_getElem.1 h

/-- C1 witness: on empty in-memory and persisted stores both layers pass
for a fresh anomaly; and the acknowledgement-free double-evaluation trace
`opsNoAck` satisfies the pairwise gap property (its store keeps a single
alert, the second evaluation being suppressed). -/
theorem alert_emission_requires_both_layers_witness :
    (shouldSendAlert [] "h1" "excessive_bathroom_visits" 0 = true ∧
     recentAlertExists [] "h1" "excessive_bathroom_visits" 0 = false) ∧
    (∀ (i j : Nat) (hi : i < (runOps opsNoAck).store.length)
      (hj : j < (runOps opsNoAck).store.length), i < j →
      ((runOps opsNoAck).store[i].household_id
          = (runOps opsNoAck).store[j].household_id →
        (runOps opsNoAck).store[i].atype = (runOps opsNoAck).store[j].atype →
        (runOps opsNoAck).store[i].timestamp + cooldownSeconds
          < (runOps opsNoAck).store[j].timestamp)) := by
  constructor
  · exact alert_emission_requires_both_layers.1 "h1" 0 0 ([], [], [])
      (mkAnomaly "h1" "excessive_bathroom_visits" "medium" 0) (by decide)
  · refine alert_emission_requires_both_layers.2 opsNoAck ?_
    intro op hop alertId
    simp only [opsNoAck, List.mem_cons, List.not_mem_nil, or_false] at hop
    rcases hop with h | h <;> subst h <;> exact fun hc => AlertOp.noConfusion hc

/-! ## C5 — the missed-kitchen rule -/

/-- C5, counterexample: with a baseline kitchen `latest` of `"00:00"`
(which parses to 0 minutes), a woken state with no kitchen visit,
evaluated at 100 minutes past midnight (`> 0 + 30`), the claim demands a
`missed_kitchen_activity` anomaly — but the truthiness test
`if latest_kitchen_mins and ...` treats the parsed 0 as absent and
`check_anomalies` emits nothing. -/
theorem missed_kitchen_zero_latest_counterexample :
    stScenarioA.wake_detected = true ∧ stScenarioA.kitchen_visited = false ∧
    blZeroLatest.first_kitchen_time.latest = some "00:00" ∧
    time_to_minutes "00:00" = some 0 ∧
    ((currentMinutes 6000 : Int) > 0 + 30) ∧
    check_anomalies "h1" (some blZeroLatest) stScenarioA none [] [] 6000 6000
      = .ok ([], [], [], []) :=
  ⟨rfl, rfl, rfl, by decide, by decide, rfl⟩

/-- C5, amended: when `check_anomalies` returns without raising, its
anomaly list contains exactly one `missed_kitchen_activity` entry — of
severity `medium` — iff the state has `wake_detected` and not
`kitchen_visited` and the baseline's kitchen `latest` is present,
non-empty and parses to a *non-zero* minute value `lm` with
`current_minutes > lm + 30` (the claim as written omits the non-zero
truthiness requirement). -/
theorem check_anomalies_missed_kitchen_characterization
    (hid : String) (b : Baseline) (st : HouseholdDailyState)
    (recent : RecentMap) (store : List Alert) (tC tN : Nat)
    (anoms : List Alert) (r' : RecentMap) (s' p' : List Alert)
    (h : check_anomalies hid (some b) st none recent store tC tN
      = .ok (anoms, r', s', p')) :
    (anoms.countP (fun a => a.atype == "missed_kitchen_activity") = 1
      ↔ MissedCond b st tC) ∧
    (∀ a ∈ anoms, a.atype = "missed_kitchen_activity" → a.severity = "medium") := by
  obtain ⟨o1, o2, h1, h2, ha⟩ :=
    check_anomalies_ok_decomp hid b st recent store tC tN anoms r' s' p' h
  have c1 := rule_missed_kitchen_char hid b st tC o1 h1
  have c2 := rule_prolonged_shape hid st tC o2 h2
  have c3 := (rule_excessive_char hid b st tC).2
  have c4 := rule_late_shape hid b st tC
  have z2 : o2.toList.countP (fun a => a.atype == "missed_kitchen_activity") = 0 :=
    countP_toList_zero _ _ (fun a hs => by rw [c2 a hs]; rfl)
  have z3 : (rule_excessive_bathroom hid b st tC).toList.countP
      (fun a => a.atype == "missed_kitchen_activity") = 0 :=
    countP_toList_zero _ _ (fun a hs => by rw [c3 a hs]; rfl)
  have z4 : (rule_late_wake hid b st tC).toList.countP
      (fun a => a.atype == "missed_kitchen_activity") = 0 :=
    countP_toList_zero _ _ (fun a hs => by rw [c4 a hs]; rfl)
  subst ha
  constructor
  · rw [List.countP_append, List.countP_append, List.countP_append, z2, z3, z4]
    rw [← c1.1]
    cases o1 with
    | none => simp
    | some a => rw [c1.2 a rfl]; simp [mkAnomaly]
  · intro a hmem hty
    rcases List.mem_append.1 hmem with hmem | h4
    · rcases List.mem_append.1 hmem with hmem | h3
      · rcases List.mem_append.1 hmem with hin1 | h2m
        · cases o1 with
          | none => simp at hin1
          | some x =>
            simp at hin1
            rw [hin1, c1.2 x rfl]
            rfl
        · cases o2 with
          | none => simp at h2m
          | some x =>
            simp at h2m
            rw [h2m, c2 x rfl] at hty
            exact absurd hty (by simp [mkAnomaly])
      · cases hx : rule_excessive_bathroom hid b st tC with
        | none => rw [hx] at h3; simp at h3
        | some x =>
          rw [hx] at h3; simp at h3
          rw [h3, c3 x hx] at hty
          exact absurd hty (by simp [mkAnomaly])
    · cases hx : rule_late_wake hid b st tC with
      | none => rw [hx] at h4; simp at h4
      | some x =>
        rw [hx] at h4; simp at h4
        rw [h4, c4 x hx] at hty
        exact absurd hty (by simp [mkAnomaly])

/-- C5 witness: Scenario A — woken at 06:30, no kitchen visit, evaluated
at 09:00 against kitchen `latest = 08:00`: the condition holds and exactly
one `missed_kitchen_activity` anomaly is produced. -/
theorem check_anomalies_missed_kitchen_witness :
    MissedCond blScenarioA stScenarioA 32400 ∧
    ([mkAnomaly "h1" "missed_kitchen_activity" "medium" 32400].countP
      (fun a => a.atype == "missed_kitchen_activity") = 1) := by
  have hcond : MissedCond blScenarioA stScenarioA 32400 :=
    ⟨rfl, rfl, "08:00", 480, rfl, by decide, by decide, by decide, by decide⟩
  have h := (check_anomalies_missed_kitchen_characterization "h1" blScenarioA
    stScenarioA [] [] 32400 32400
    [mkAnomaly "h1" "missed_kitchen_activity" "medium" 32400]
    [(("h1", "missed_kitchen_activity"), 32400)]
    [save_alert (mkAnomaly "h1" "missed_kitchen_activity" "medium" 32400) 32400]
    [save_alert (mkAnomaly "h1" "missed_kitchen_activity" "medium" 32400) 32400]
    rfl).1
  exact ⟨hcond, h.mpr hcond⟩

/-! ## C6 — the excessive-bathroom rule -/

/-- C6, counterexample: with a baseline carrying `max_daily = 0` and a
state with 5 bathroom visits (`5 > 0 + 2`), the claim demands an
`excessive_bathroom_visits` anomaly — but `if
bathroom_baseline.get("max_daily"):` treats the 0 as absent and
`check_anomalies` emits nothing. -/
theorem excessive_bathroom_zero_max_counterexample :
    blMaxZero.bathroom_visits.max_daily = some 0 ∧
    stBath5.bathroom_count = 5 ∧
    ((stBath5.bathroom_count : Int) > 0 + 2) ∧
    check_anomalies "h1" (some blMaxZero) stBath5 none [] [] 32400 32400
      = .ok ([], [], [], []) :=
  ⟨rfl, rfl, by decide, rfl⟩

/-- C6, amended: when `check_anomalies` returns without raising, its
anomaly list contains exactly one `excessive_bathroom_visits` entry — of
severity `medium` — iff the baseline's `max_daily` is present and
*non-zero* and `bathroom_count > max_daily + 2` (the claim as written
omits the non-zero truthiness requirement). -/
theorem check_anomalies_excessive_bathroom_characterization
    (hid : String) (b : Baseline) (st : HouseholdDailyState)
    (recent : RecentMap) (store : List Alert) (tC tN : Nat)
    (anoms : List Alert) (r' : RecentMap) (s' p' : List Alert)
    (h : check_anomalies hid (some b) st none recent store tC tN
      = .ok (anoms, r', s', p')) :
    (anoms.countP (fun a => a.atype == "excessive_bathroom_visits") = 1
      ↔ ExcessiveCond b st) ∧
    (∀ a ∈ anoms, a.atype = "excessive_bathroom_visits" → a.severity = "medium") := by
  obtain ⟨o1, o2, h1, h2, ha⟩ :=
    check_anomalies_ok_decomp hid b st recent store tC tN anoms r' s' p' h
  have c1 := (rule_missed_kitchen_char hid b st tC o1 h1).2
  have c2 := rule_prolonged_shape hid st tC o2 h2
  have c3 := rule_excessive_char hid b st tC
  have c4 := rule_late_shape hid b st tC
  have z1 : o1.toList.countP (fun a => a.atype == "excessive_bathroom_visits") = 0 :=
    countP_toList_zero _ _ (fun a hs => by rw [c1 a hs]; rfl)
  have z2 : o2.toList.countP (fun a => a.atype == "excessive_bathroom_visits") = 0 :=
    countP_toList_zero _ _ (fun a hs => by rw [c2 a hs]; rfl)
  have z4 : (rule_late_wake hid b st tC).toList.countP
      (fun a => a.atype == "excessive_bathroom_visits") = 0 :=
    countP_toList_zero _ _ (fun a hs => by rw [c4 a hs]; rfl)
  subst ha
  constructor
  · rw [List.countP_append, List.countP_append, List.countP_append, z1, z2, z4]
    rw [← c3.1]
    cases hx : rule_excessive_bathroom hid b st tC with
    | none => simp
    | some a => rw [c3.2 a hx]; simp [mkAnomaly]
  · intro a hmem hty
    rcases List.mem_append.1 hmem with hmem | h4
    · rcases List.mem_append.1 hmem with hmem | h3
      · rcases List.mem_append.1 hmem with hin1 | h2m
        · cases o1 with
          | none => simp at hin1
          | some x =>
            simp at hin1
            rw [hin1, c1 x rfl] at hty
            exact absurd hty (by simp [mkAnomaly])
        · cases o2 with
          | none => simp at h2m
          | some x =>
            simp at h2m
            rw [h2m, c2 x rfl] at hty
            exact absurd hty (by simp [mkAnomaly])
      · cases hx : rule_excessive_bathroom hid b st tC with
        | none => rw [hx] at h3; simp at h3
        | some x =>
          rw [hx] at h3; simp at h3
          rw [h3, c3.2 x hx]
          rfl
    · cases hx : rule_late_wake hid b st tC with
      | none => rw [hx] at h4; simp at h4
      | some x =>
        rw [hx] at h4; simp at h4
        rw [h4, c4 x hx] at hty
        exact absurd hty (by simp [mkAnomaly])

/-- C6 witness: Scenario B — `bathroom_count = 10` against
`max_daily = 6`: the condition holds (`10 > 6 + 2`) and exactly one
`excessive_bathroom_visits` anomaly is produced. -/
theorem check_anomalies_excessive_bathroom_witness :
    ExcessiveCond blScenarioB stScenarioB ∧
    ([mkAnomaly "h1" "excessive_bathroom_visits" "medium" 32400].countP
      (fun a => a.atype == "excessive_bathroom_visits") = 1) := by
  have hcond : ExcessiveCond blScenarioB stScenarioB :=
    ⟨6, rfl, by decide, by decide⟩
  have h := (check_anomalies_excessive_bathroom_characterization "h1" blScenarioB
    stScenarioB [] [] 32400 32400
    [mkAnomaly "h1" "excessive_bathroom_visits" "medium" 32400]
    [(("h1", "excessive_bathroom_visits"), 32400)]
    [save_alert (mkAnomaly "h1" "excessive_bathroom_visits" "medium" 32400) 32400]
    [save_alert (mkAnomaly "h1" "excessive_bathroom_visits" "medium" 32400) 32400]
    rfl).1
  exact ⟨hcond, h.mpr hcond⟩

/-! ## C9 — malformed time data -/

/-- C9, counterexample: an unparsable `last_motion_time` makes
`datetime.fromisoformat` raise `ValueError` inside `check_anomalies`, so
evaluation *is* aborted by malformed time data, contrary to the claim. -/
theorem malformed_last_motion_raises_counterexample :
    stBadMotion.last_motion_time = some "not-a-timestamp" ∧
    parse_isoformat "not-a-timestamp" = none ∧
    check_anomalies "h1" (some blScenarioB) stBadMotion none [] [] 32400 32400
      = .error "ValueError: fromisoformat" :=
  ⟨rfl, rfl, rfl⟩

/-- C9, amended: `time_to_minutes` itself is total — any string that does
not split into two `int`-parsable parts yields `None`, never an exception
— and a malformed `"HH:MM"` string in the state is ignored locally: when
`check_anomalies` returns without raising and `wake_up_time` is
unparsable, no `late_wake_up` anomaly is produced while the bathroom rule
is still evaluated exactly as usual.  (An unparsable `last_motion_time`,
by contrast, does raise — see the counterexample.) -/
theorem time_to_minutes_none_and_isolation :
    (∀ s : String, time_to_minutes s = none ∨
      ∃ hs ms hv mv, pySplit s ':' = [hs, ms] ∧ parsePyInt hs = some hv ∧
        parsePyInt ms = some mv ∧ time_to_minutes s = some (hv * 60 + mv)) ∧
    (∀ (hid : String) (b : Baseline) (st : HouseholdDailyState)
      (recent : RecentMap) (store : List Alert) (tC tN : Nat)
      (anoms : List Alert) (r' : RecentMap) (s' p' : List Alert) (w : String),
      check_anomalies hid (some b) st none recent store tC tN
        = .ok (anoms, r', s', p') →
      st.wake_up_time = some w → time_to_minutes w = none →
      anoms.countP (fun a => a.atype == "late_wake_up") = 0 ∧
      (anoms.countP (fun a => a.atype == "excessive_bathroom_visits") = 1
        ↔ ExcessiveCond b st)) := by
  constructor
  · intro s
    unfold time_to_minutes
    split
    · rename_i hs ms heq
      split
      · rename_i hv mv hp1 hp2
        exact Or.inr ⟨hs, ms, hv, mv, heq, hp1, hp2, rfl⟩
      · exact Or.inl rfl
    · exact Or.inl rfl
  · intro hid b st recent store tC tN anoms r' s' p' w h hw hbad
    refine ⟨?_, (check_anomalies_excessive_bathroom_characterization hid b st
      recent store tC tN anoms r' s' p' h).1⟩
    obtain ⟨o1, o2, h1, h2, ha⟩ :=
      check_anomalies_ok_decomp hid b st recent store tC tN anoms r' s' p' h
    have c1 := (rule_missed_kitchen_char hid b st tC o1 h1).2
    have c2 := rule_prolonged_shape hid st tC o2 h2
    have c3 := (rule_excessive_char hid b st tC).2
    have hlate := rule_late_none_of_bad_wake hid b st tC w hw hbad
    subst ha
    rw [List.countP_append, List.countP_append, List.countP_append, hlate]
    have z1 : o1.toList.countP (fun a => a.atype == "late_wake_up") = 0 :=
      countP_toList_zero _ _ (fun a hs => by rw [c1 a hs]; rfl)
    have z2 : o2.toList.countP (fun a => a.atype == "late_wake_up") = 0 :=
      countP_toList_zero _ _ (fun a hs => by rw [c2 a hs]; rfl)
    have z3 : (rule_excessive_bathroom hid b st tC).toList.countP
        (fun a => a.atype == "late_wake_up") = 0 :=
      countP_toList_zero _ _ (fun a hs => by rw [c3 a hs]; rfl)
    rw [z1, z2, z3]
    rfl

/-- C9 witness: a state with unparsable `wake_up_time = "garbage"` and 10
bathroom visits still yields the bathroom anomaly and no late-wake
anomaly; and `time_to_minutes "garbage"` is `None`. -/
theorem time_to_minutes_none_and_isolation_witness :
    (time_to_minutes "garbage" = none ∨
      ∃ hs ms hv mv, pySplit "garbage" ':' = [hs, ms] ∧ parsePyInt hs = some hv ∧
        parsePyInt ms = some mv ∧ time_to_minutes "garbage" = some (hv * 60 + mv)) ∧
    ([mkAnomaly "h1" "excessive_bathroom_visits" "medium" 32400].countP
        (fun a => a.atype == "late_wake_up") = 0 ∧
      ([mkAnomaly "h1" "excessive_bathroom_visits" "medium" 32400].countP
        (fun a => a.atype == "excessive_bathroom_visits") = 1
        ↔ ExcessiveCond blScenarioB stBadWake)) := by
  constructor
  · exact time_to_minutes_none_and_isolation.1 "garbage"
  · exact time_to_minutes_none_and_isolation.2 "h1" blScenarioB stBadWake
      [] [] 32400 32400
      [mkAnomaly "h1" "excessive_bathroom_visits" "medium" 32400]
      [(("h1", "excessive_bathroom_visits"), 32400)]
      [save_alert (mkAnomaly "h1" "excessive_bathroom_visits" "medium" 32400) 32400]
      [save_alert (mkAnomaly "h1" "excessive_bathroom_visits" "medium" 32400) 32400]
      "garbage" rfl rfl (by decide)

/-! ## C2 — a missing baseline short-circuits evaluation -/

/-- C2: when `get_baseline` yields `None` for a household,
`check_anomalies` returns the empty anomaly list without raising, leaves
the alert store unchanged, and pushes nothing to the frontend. -/
theorem check_anomalies_no_baseline
    (cache : BaselineCache) (db : List BaselineDoc) (hid : String) (tCache : Nat)
    (state : HouseholdDailyState) (lastEvent : Option Event)
    (recent : RecentMap) (store : List Alert) (tCurrent tNow : Nat)
    (h : get_baseline cache db hid tCache = none) :
    check_anomalies hid (get_baseline cache db hid tCache) state lastEvent
      recent store tCurrent tNow = .ok ([], recent, store, []) := by
  rw [h]
  rfl

/-- C2 witness: a household absent from both the cache and the
`routine_baselines` store. -/
theorem check_anomalies_no_baseline_witness :
    check_anomalies "h1" (get_baseline [] [] "h1" 0) stScenarioB none
      [] [] 32400 32400 = .ok ([], [], [], []) :=
  check_anomalies_no_baseline [] [] "h1" 0 stScenarioB none [] [] 32400 32400 rfl

/-! ## Helper lemmas: folded minimum and maximum -/

lemma foldl_min_spec (l : List ℚ) : ∀ a : ℚ,
    (l.foldl min a = a ∨ l.foldl min a ∈ l) ∧ l.foldl min a ≤ a ∧
    ∀ v ∈ l, l.foldl min a ≤ v := by
  induction l with
  | nil => intro a; exact ⟨Or.inl rfl, le_refl a, by simp⟩
  | cons x xs ih =>
    intro a
    simp only [List.foldl_cons]
    obtain ⟨hmem, hle, hall⟩ := ih (min a x)
    refine ⟨?_, hle.trans (min_le_left a x), ?_⟩
    · rcases hmem with h | h
      · rcases le_total a x with hax | hax
        · exact Or.inl (by rw [h, min_eq_left hax])
        · exact Or.inr (by rw [h, min_eq_right hax]; exact List.mem_cons_self x xs)
      · exact Or.inr (List.mem_cons_of_mem x h)
    · intro v hv
      rcases List.mem_cons.1 hv with rfl | hv
      · exact hle.trans (min_le_right a v)
      · exact hall v hv

lemma foldl_max_spec (l : List ℚ) : ∀ a : ℚ,
    (l.foldl max a = a ∨ l.foldl max a ∈ l) ∧ a ≤ l.foldl max a ∧
    ∀ v ∈ l, v ≤ l.foldl max a := by
  induction l with
  | nil => intro a; exact ⟨Or.inl rfl, le_refl a, by simp⟩
  | cons x xs ih =>
    intro a
    simp only [List.foldl_cons]
    obtain ⟨hmem, hle, hall⟩ := ih (max a x)
    refine ⟨?_, (le_max_left a x).trans hle, ?_⟩
    · rcases hmem with h | h
      · rcases le_total a x with hax | hax
        · exact Or.inr (by rw [h, max_eq_right hax]; exact List.mem_cons_self x xs)
        · exact Or.inl (by rw [h, max_eq_left hax])
      · exact Or.inr (List.mem_cons_of_mem x h)
    · intro v hv
      rcases List.mem_cons.1 hv with rfl | hv
      · exact (le_max_right a v).trans hle
      · exact hall v hv

/-! ## C7 — `stat_summary` -/

/-- C7: for every non-empty list of valid (non-empty, parsable) `"HH:MM"`
strings, `stat_summary` converts the entries to minutes-since-midnight and
returns, formatted back to `"HH:MM"`: the `statistics.median`, the
`statistics.mean`, the minimum (`earliest`) and the maximum (`latest`) of
those minute values; `std_dev_minutes` is 0 whenever fewer than 2 values
are present; on `{06:25, 06:30, 06:35}` it returns `median = 06:30`,
`earliest = 06:25`, `latest = 06:35` (and `mean = 06:30`); and the empty
input yields the empty summary. -/
theorem stat_summary_roundtrip :
    (∀ data : List String, data ≠ [] →
      (∀ x ∈ data, x ≠ "" ∧ (timestr2minutes x).isSome) →
      ∃ stats, stat_summary_times data = .ok (some stats) ∧
        stats.median = minutesToHHMM (pyMedian (qValues data)) ∧
        stats.mean = minutesToHHMM (pyMean (qValues data)) ∧
        (∃ m, m ∈ qValues data ∧ stats.earliest = minutesToHHMM m ∧
          ∀ v ∈ qValues data, m ≤ v) ∧
        (∃ M, M ∈ qValues data ∧ stats.latest = minutesToHHMM M ∧
          ∀ v ∈ qValues data, v ≤ M)) ∧
    (∀ data : List String, (qValues data).length < 2 → statSummaryStd data = 0) ∧
    stat_summary_times ["06:25", "06:30", "06:35"]
      = .ok (some ⟨"06:30", "06:30", "06:25", "06:35"⟩) ∧
    stat_summary_times [] = .ok none := by
  refine ⟨?_, ?_, ?_, rfl⟩
  · intro data hne hvalid
    have hfilter : data.filter (fun x => x ≠ "") = data :=
      List.filter_eq_self.mpr (fun a ha => by simpa using (hvalid a ha).1)
    have hraw : rawMinutes data = data.map timestr2minutes := by
      rw [rawMinutes, hfilter]
    have hrawne : rawMinutes data ≠ [] := by
      rw [hraw]
      simpa using hne
    have hempty : (rawMinutes data).isEmpty = false := List.isEmpty_eq_false.mpr hrawne
    have hnonemem : none ∉ rawMinutes data := by
      rw [hraw]
      intro hmem
      obtain ⟨x, hx, heq⟩ := List.mem_map.1 hmem
      have h2 := (hvalid x hx).2
      rw [heq] at h2
      simp at h2
    have hnone : (rawMinutes data).contains none = false := by simpa using hnonemem
    have hqne : qValues data ≠ [] := by
      obtain ⟨d, rest, rfl⟩ := List.exists_cons_of_ne_nil hne
      obtain ⟨v, hv⟩ :=
        Option.isSome_iff_exists.mp (hvalid d (List.mem_cons_self d rest)).2
      simp [qValues, rawMinutes, (hvalid d (List.mem_cons_self d rest)).1, hv]
    refine ⟨{ median := minutesToHHMM (pyMedian (qValues data)),
              mean := minutesToHHMM (pyMean (qValues data)),
              earliest :=
                minutesToHHMM ((qValues data).foldl min ((qValues data).headD 0)),
              latest :=
                minutesToHHMM ((qValues data).foldl max ((qValues data).headD 0)) },
        ?_, rfl, rfl, ?_, ?_⟩
    · simp only [stat_summary_times, hempty, hnone, Bool.false_eq_true, if_false]
    · obtain ⟨hmem, -, hall⟩ := foldl_min_spec (qValues data) ((qValues data).headD 0)
      rcases hmem with h | h
      · refine ⟨(qValues data).headD 0, ?_, by rw [h], fun v hv => h ▸ hall v hv⟩
        cases hq : qValues data with
        | nil => exact absurd hq hqne
        | cons q qs => simp [hq]
      · exact ⟨_, h, rfl, hall⟩
    · obtain ⟨hmem, -, hall⟩ := foldl_max_spec (qValues data) ((qValues data).headD 0)
      rcases hmem with h | h
      · refine ⟨(qValues data).headD 0, ?_, by rw [h], fun v hv => h ▸ hall v hv⟩
        cases hq : qValues data with
        | nil => exact absurd hq hqne
        | cons q qs => simp [hq]
      · exact ⟨_, h, rfl, hall⟩
  · intro data hlen
    simp only [statSummaryStd]
    rw [if_neg (by omega)]
  · have hraw : rawMinutes ["06:25", "06:30", "06:35"]
        = [some 385, some 390, some 395] := by decide
    have hq : qValues ["06:25", "06:30", "06:35"] = [385, 390, 395] := by decide
    have hsort : pySort [(385 : ℚ), 390, 395] = [385, 390, 395] := by
      norm_num [pySort, insertSorted]
    have hmed : pyMedian [(385 : ℚ), 390, 395] = 390 := by
      simp [pyMedian, hsort]
    have hmean : pyMean [(385 : ℚ), 390, 395] = 390 := by
      norm_num [pyMean, List.sum_cons, List.sum_nil]
    have hmin : ([(385 : ℚ), 390, 395].foldl min
        (([(385 : ℚ), 390, 395]).headD 0)) = 385 := by
      norm_num [List.foldl, min_def]
    have hmax : ([(385 : ℚ), 390, 395].foldl max
        (([(385 : ℚ), 390, 395]).headD 0)) = 395 := by
      norm_num [List.foldl, max_def]
    have hf390 : minutesToHHMM 390 = "06:30" := by
      have h1 : ⌊(390 : ℚ) / 60⌋ = 6 := by norm_num
      unfold minutesToHHMM
      rw [h1]
      norm_num
      decide
    have hf385 : minutesToHHMM 385 = "06:25" := by
      have h1 : ⌊(385 : ℚ) / 60⌋ = 6 := by norm_num
      unfold minutesToHHMM
      rw [h1]
      norm_num
      decide
    have hf395 : minutesToHHMM 395 = "06:35" := by
      have h1 : ⌊(395 : ℚ) / 60⌋ = 6 := by norm_num
      unfold minutesToHHMM
      rw [h1]
      norm_num
      decide
    simp only [stat_summary_times, hraw, hq]
    rw [if_neg (by decide), if_neg (by decide)]
    rw [hmed, hmean, hmin, hmax, hf390, hf385, hf395]

/-- C7 witness: the general clause applied to the concrete valid list
`{06:25, 06:30, 06:35}`, and the below-two-values clause applied to a
one-element list. -/
theorem stat_summary_roundtrip_witness :
    (∃ stats, stat_summary_times ["06:25", "06:30", "06:35"] = .ok (some stats) ∧
      stats.median = minutesToHHMM (pyMedian (qValues ["06:25", "06:30", "06:35"])) ∧
      stats.mean = minutesToHHMM (pyMean (qValues ["06:25", "06:30", "06:35"])) ∧
      (∃ m, m ∈ qValues ["06:25", "06:30", "06:35"] ∧
        stats.earliest = minutesToHHMM m ∧
        ∀ v ∈ qValues ["06:25", "06:30", "06:35"], m ≤ v) ∧
      (∃ M, M ∈ qValues ["06:25", "06:30", "06:35"] ∧
        stats.latest = minutesToHHMM M ∧
        ∀ v ∈ qValues ["06:25", "06:30", "06:35"], v ≤ M)) ∧
    statSummaryStd ["06:25"] = 0 := by
  constructor
  · refine stat_summary_roundtrip.1 ["06:25", "06:30", "06:35"] (by decide) ?_
    intro x hx
    fin_cases hx <;> exact ⟨by decide, by decide⟩
  · exact stat_summary_roundtrip.2.1 ["06:25"] (by decide)

/-! ## C8 — activity-duration pairing across records -/

/-- C8: the claim (and the dead `if s and e` guard) require each duration
to pair the `activity_start` and `activity_end` of the same record; but
the code zips the two *separately filtered* columns, so on `docsZip`
(first record lacks an end) it subtracts record 1's start `08:00` from
record 2's end `21:00`, producing 780 minutes, where the per-record
reading yields only record 2's 720 minutes. -/
theorem activity_duration_zip_misalignment :
    docsZip = [⟨some "08:00", none⟩, ⟨some "09:00", some "21:00"⟩] ∧
    activity_durations_code docsZip = [some 780] ∧
    activity_durations_spec docsZip = [some 720] ∧
    activity_durations_code docsZip ≠ activity_durations_spec docsZip := by
  refine ⟨rfl, by decide, by decide, by decide⟩

end Wellnest
